import Mathlib

/-!
Shallow embedding of the go-loggly client (`loggly.go`).

Go maps from string keys are modelled as association lists with a
replace-on-insert discipline, so a key has at most one binding when the
list is built by the operations below.  The pieces embedded here are the
ones the buffering/flush engine uses: record preparation in `Send`
(timestamp fill and defaults merge, or the minimal-mode key stripping),
group-key extraction from `partnerID`, the grouped buffer with its
append and the `len(c.buffer) >= c.BufferSize` trigger, the `Flush` loop
over HTTP results, and the severity wrappers.
-/

namespace Loggly

/-- Client version constant from the source (`const Version = "0.4.3"`). -/
def Version : String := "0.4.3"

/-- JSON-like values a log record maps keys to. -/
inductive JValue where
  | str (s : String)
  | num (n : Int)
  | bool (b : Bool)
  | null
  deriving DecidableEq, Repr

/-- Association-list lookup: the value bound to `k`, Go `m[k]` presence check. -/
def lookupKey {α : Type} : List (String × α) → String → Option α
  | [], _ => none
  | (k0, v) :: rest, k => if k0 = k then some v else lookupKey rest k

/-- Association-list update, Go `m[k] = v`: replaces an existing binding of
`k`, otherwise adds one. -/
def insertKey {α : Type} : List (String × α) → String → α → List (String × α)
  | [], k, v => [(k, v)]
  | (k0, v0) :: rest, k, v =>
    if k0 = k then (k0, v) :: rest else (k0, v0) :: insertKey rest k v

/-- Association-list removal, Go `delete(m, k)`. -/
def eraseKey {α : Type} : List (String × α) → String → List (String × α)
  | [], _ => []
  | (k0, v0) :: rest, k =>
    if k0 = k then eraseKey rest k else (k0, v0) :: eraseKey rest k

/-- A log record: a Go `map[string]interface\x7b\x7d`. -/
abbrev Record := List (String × JValue)

/-- The `merge` helper of the source: copies every binding of every map in
`others` into `a`, later bindings overwriting earlier ones. -/
def merge (a : Record) (others : List Record) : Record :=
  others.foldl (fun acc m => m.foldl (fun acc2 kv => insertKey acc2 kv.1 kv.2) acc) a

/-- Serialization of one value, the JSON encoding used by `Marshal`. -/
def JValue.marshal : JValue → String
  | .str s => "\"" ++ s ++ "\""
  | .num n => toString n
  | .bool b => if b then "true" else "false"
  | .null => "null"

/-- Serialization of the fields of a record. -/
def marshalFields : Record → String
  | [] => ""
  | [(k, v)] => "\"" ++ k ++ "\":" ++ v.marshal
  | (k, v) :: rest => "\"" ++ k ++ "\":" ++ v.marshal ++ "," ++ marshalFields rest

/-- Serialization of a whole record to one line, the `Marshal(msg)` call. -/
def marshal (r : Record) : String := "\x7b" ++ marshalFields r ++ "\x7d"

/-- Severity levels of the source (`DEBUG` through `EMERGENCY`). -/
inductive Level where
  | DEBUG
  | INFO
  | NOTICE
  | WARNING
  | ERROR
  | CRITICAL
  | ALERT
  | EMERGENCY
  deriving DecidableEq, Repr

/-- Numeric value of a level, as produced by the Go `iota` enumeration. -/
def Level.toNat : Level → Nat
  | .DEBUG => 0
  | .INFO => 1
  | .NOTICE => 2
  | .WARNING => 3
  | .ERROR => 4
  | .CRITICAL => 5
  | .ALERT => 6
  | .EMERGENCY => 7

/-- The grouped buffer: `map[string][][]byte`, group key to queued encoded
records (each blob modelled as the marshalled string). -/
abbrev Buffer := List (String × List String)

/-- The configuration of a `Client` relevant to the buffering engine. -/
structure Client where
  level : Level
  bufferSize : Nat
  minimalLog : Bool
  defaults : Record
  deriving Repr

/-- Go append into the buffer map:
`c.buffer[k] = append(c.buffer[k], b)` (a missing key reads as nil). -/
def bufferAppend (buf : Buffer) (k : String) (b : String) : Buffer :=
  insertKey buf k (((lookupKey buf k).getD []) ++ [b])

/-- Number of groups in the buffer, Go `len(c.buffer)`: counts keys,
including keys whose queue was cleared to nil. -/
def numGroups (buf : Buffer) : Nat := buf.length

/-- The automatic-flush condition of `Send` and `Write`:
`len(c.buffer) >= c.BufferSize`. -/
def flushTriggered (buf : Buffer) (bufferSize : Nat) : Bool :=
  decide (bufferSize ≤ numGroups buf)

/-- Record preparation at the top of `Send`: minimal mode deletes the
`filename`, `func`, `hostname` and `line` keys; otherwise a `timestamp`
is filled in when absent and the configured defaults are merged over the
record. -/
def sendPrepare (minimalLog : Bool) (defaults : Record) (now : Int) (msg : Record) : Record :=
  if minimalLog then
    eraseKey (eraseKey (eraseKey (eraseKey msg "filename") "func") "hostname") "line"
  else
    merge (if (lookupKey msg "timestamp").isSome then msg
           else insertKey msg "timestamp" (.num now)) [defaults]

/-- Group-key extraction of `Send`: the `partnerID` value when present
(`none` models the panic of the unchecked `val.(string)` assertion on a
non-string value), otherwise the sentinel `"notag"`. -/
def groupKeyOf (m : Record) : Option String :=
  match lookupKey m "partnerID" with
  | some (.str s) => some s
  | some _ => none
  | none => some "notag"

/-- Outcome of a `Send` call: either the goroutine panics on the
`partnerID` type assertion, or it returns an error value (always nil
here, since every `JValue` is marshallable) together with the new buffer
and whether an asynchronous flush was started. -/
inductive SendOutcome where
  | panicked
  | returned (err : Option String) (buf : Buffer) (asyncFlush : Bool)
  deriving DecidableEq, Repr

/-- The `Send` method: prepare the record, compute its group key, marshal
it, append it to the group queue, and start an asynchronous flush when
the group count reaches the buffer size. -/
def Send (c : Client) (now : Int) (msg : Record) (buf : Buffer) : SendOutcome :=
  let m := sendPrepare c.minimalLog c.defaults now msg
  match groupKeyOf m with
  | none => .panicked
  | some k =>
    let buf2 := bufferAppend buf k (marshal m)
    .returned none buf2 (flushTriggered buf2 c.bufferSize)

/-- The new buffer of a `Send` outcome (unchanged buffer on a panic). -/
def SendOutcome.outBuf : SendOutcome → Buffer
  | .panicked => []
  | .returned _ b _ => b

/-- Whether the `Send` outcome started an asynchronous flush. -/
def SendOutcome.didFlush : SendOutcome → Bool
  | .panicked => false
  | .returned _ _ t => t

/-- The `Write` method: appends the raw bytes under the `"notag"` group
and applies the same threshold check; returns the byte count and a nil
error. -/
def WriteRaw (c : Client) (b : String) (buf : Buffer) :
    (Nat × Option String) × Buffer × Bool :=
  let buf2 := bufferAppend buf "notag" b
  ((b.length, none), buf2, flushTriggered buf2 c.bufferSize)

/-- The `level` string each severity wrapper puts into its record. -/
def levelName : Level → String
  | .DEBUG => "debug"
  | .INFO => "info"
  | .NOTICE => "notice"
  | .WARNING => "warning"
  | .ERROR => "error"
  | .CRITICAL => "critical"
  | .ALERT => "alert"
  | .EMERGENCY => "emergency"

/-- A severity wrapper (`Debug`, `Info`, ..., `Emergency`): when the
configured level is numerically greater than the call level it returns
nil at once, touching nothing; otherwise it builds the
`level`/`component` record, merges the caller properties in, and calls
`Send`. -/
def severityCall (c : Client) (callLevel : Level) (t : String) (props : List Record)
    (now : Int) (buf : Buffer) : SendOutcome :=
  if c.level.toNat > callLevel.toNat then .returned none buf false
  else
    Send c now
      (merge [("level", .str (levelName callLevel)), ("component", .str t)] props) buf

/-- Go conversion `string(i)` on an integer: the UTF-8 string of the rune
with that code point, the replacement character for an invalid rune ---
not a decimal rendering. -/
def goRuneString (n : Nat) : String :=
  if n.isValidChar then String.mk [Char.ofNat n] else "�"

/-- An outbound HTTP request as `Flush` builds it. -/
structure Request where
  method : String
  url : String
  headers : List (String × String)
  body : String
  deriving DecidableEq, Repr

/-- An HTTP response, as far as `Flush` inspects it. -/
structure Response where
  statusCode : Nat
  body : String
  deriving DecidableEq, Repr

/-- The result of `client.Do(req)`: a transport failure (non-nil error) or
a response (nil error). -/
inductive DoResult where
  | failure (e : String)
  | success (res : Response)
  deriving DecidableEq, Repr

/-- Request construction in `Flush`: POST to the endpoint with the
user-agent, content-type and content-length headers, plus the
`X-Loggly-Tag` header when the group key is not the `"notag"` sentinel.
The content-length value is `string(len(body))`, the Go rune
conversion. -/
def buildRequest (endpoint : String) (k : String) (body : String) : Request :=
  let base := [("User-Agent", "go-loggly (version: " ++ Version ++ ")"),
               ("Content-Type", "text/plain"),
               ("Content-Length", goRuneString body.length)]
  ⟨"POST", endpoint, if k = "notag" then base else base ++ [("X-Loggly-Tag", k)], body⟩

/-- One pass of the `Flush` loop over the groups of the buffer, given the
transport behaviour `env` for each group.  Per group: an empty queue is
skipped; otherwise the queue is joined with newlines, the queue is set
to nil, and the POST is attempted.  A transport failure returns that
error and stops the pass.  A response with status at least 400 executes
`return err` --- and `err` is nil there, because `client.Do` succeeded,
so the pass stops returning nil.  Produces the final buffer, the
requests attempted, and the returned error value (`none` is a nil
error). -/
def flushPass (env : String → DoResult) (endpoint : String) :
    Buffer → Buffer × List Request × Option String
  | [] => ([], [], none)
  | (k, q) :: rest =>
    if q.isEmpty then
      let r := flushPass env endpoint rest
      ((k, q) :: r.1, r.2.1, r.2.2)
    else
      let body := String.intercalate "\n" q
      let req := buildRequest endpoint k body
      match env k with
      | .failure e => ((k, []) :: rest, [req], some e)
      | .success res =>
        if res.statusCode ≥ 400 then ((k, []) :: rest, [req], none)
        else
          let r := flushPass env endpoint rest
          ((k, []) :: r.1, req :: r.2.1, r.2.2)

/-- State shared between a producer and the drain inside `Flush`: the
buffer, and the local `body` snapshot the drain took. -/
structure DrainState where
  buffer : Buffer
  snap : List String
  deriving DecidableEq, Repr

/-- The atomic actions of the append/drain interleaving.  The lock in
`Flush` covers only the snapshot (`body := bytes.Join(c.buffer[k], nl)`
between `c.Lock()` and `c.Unlock()`); the clear `c.buffer[k] = nil` runs
as a separate action after the lock is released.  A producer append
(`Send` holds the lock for its whole append) is one atomic action. -/
inductive DrainAct where
  | append (k b : String)
  | snapshot (k : String)
  | clear (k : String)
  deriving DecidableEq, Repr

/-- Effect of one atomic action on the shared state. -/
def drainStep : DrainAct → DrainState → DrainState
  | .append k b, s => ⟨bufferAppend s.buffer k b, s.snap⟩
  | .snapshot k, s => ⟨s.buffer, (lookupKey s.buffer k).getD []⟩
  | .clear k, s => ⟨insertKey s.buffer k [], s.snap⟩

/-- Run an interleaving of atomic actions. -/
def runActs (acts : List DrainAct) (s : DrainState) : DrainState :=
  acts.foldl (fun st a => drainStep a st) s

/-- The buffer mutations the client ever performs: the append of
`Send`/`Write`, and the `c.buffer[k] = nil` clear of `Flush`. -/
inductive BufOp where
  | append (k b : String)
  | clear (k : String)
  deriving DecidableEq, Repr

/-- Apply one buffer mutation. -/
def applyOp : BufOp → Buffer → Buffer
  | .append k b, buf => bufferAppend buf k b
  | .clear k, buf => insertKey buf k []

/-- Apply a sequence of buffer mutations. -/
def applyOps (ops : List BufOp) (buf : Buffer) : Buffer :=
  ops.foldl (fun b op => applyOp op b) buf

/-! ### Association-list lemmas -/

/-- Looking up the key just inserted yields the inserted value. -/
theorem lookupKey_insertKey_self {α : Type} (l : List (String × α)) (k : String) (v : α) :
    lookupKey (insertKey l k v) k = some v := by
  induction l with
  | nil => simp [insertKey, lookupKey]
  | cons p rest ih =>
    obtain ⟨k0, v0⟩ := p
    by_cases h : k0 = k
    · simp [insertKey, lookupKey, h]
    · simp [insertKey, lookupKey, h, ih]

/-- Inserting one key leaves lookups of other keys unchanged. -/
theorem lookupKey_insertKey_ne {α : Type} (l : List (String × α)) (k k2 : String) (v : α)
    (h : k2 ≠ k) : lookupKey (insertKey l k v) k2 = lookupKey l k2 := by
  induction l with
  | nil => simp [insertKey, lookupKey, Ne.symm h]
  | cons p rest ih =>
    obtain ⟨k0, v0⟩ := p
    by_cases h0 : k0 = k
    · subst h0
      simp [insertKey, lookupKey, Ne.symm h]
    · simp [insertKey, lookupKey, h0, ih]

/-- Insertion never shrinks the list of bindings. -/
theorem length_le_insertKey {α : Type} (l : List (String × α)) (k : String) (v : α) :
    l.length ≤ (insertKey l k v).length := by
  induction l with
  | nil => simp [insertKey]
  | cons p rest ih =>
    obtain ⟨k0, v0⟩ := p
    by_cases h : k0 = k
    · simp [insertKey, h]
    · simp only [insertKey, if_neg h, List.length_cons]
      omega

/-- Looking up the key just erased yields nothing. -/
theorem lookupKey_eraseKey_self {α : Type} (l : List (String × α)) (k : String) :
    lookupKey (eraseKey l k) k = none := by
  induction l with
  | nil => simp [eraseKey, lookupKey]
  | cons p rest ih =>
    obtain ⟨k0, v0⟩ := p
    by_cases h : k0 = k
    · simp [eraseKey, h, ih]
    · simp [eraseKey, lookupKey, h, ih]

/-- Erasing one key leaves lookups of other keys unchanged. -/
theorem lookupKey_eraseKey_ne {α : Type} (l : List (String × α)) (k k2 : String)
    (h : k2 ≠ k) : lookupKey (eraseKey l k) k2 = lookupKey l k2 := by
  induction l with
  | nil => simp [eraseKey]
  | cons p rest ih =>
    obtain ⟨k0, v0⟩ := p
    by_cases h0 : k0 = k
    · subst h0
      simp [eraseKey, lookupKey, Ne.symm h, ih]
    · simp [eraseKey, lookupKey, h0, ih]

/-- A lookup fails exactly when no binding carries the key. -/
theorem lookupKey_none_iff {α : Type} (l : List (String × α)) (k : String) :
    lookupKey l k = none ↔ ∀ p ∈ l, p.1 ≠ k := by
  induction l with
  | nil => simp [lookupKey]
  | cons p rest ih =>
    obtain ⟨k0, v0⟩ := p
    by_cases h : k0 = k
    · simp [lookupKey, h]
    · simp [lookupKey, h, ih]

/-- Folding inserts of bindings that avoid `k` preserves the lookup of `k`. -/
theorem lookupKey_foldl_insertKey {α : Type} (d : List (String × α))
    (a : List (String × α)) (k : String) (h : ∀ p ∈ d, p.1 ≠ k) :
    lookupKey (d.foldl (fun acc p => insertKey acc p.1 p.2) a) k = lookupKey a k := by
  induction d generalizing a with
  | nil => rfl
  | cons p tl ih =>
    rw [List.foldl_cons, ih (insertKey a p.1 p.2) (fun q hq => h q (List.mem_cons_of_mem _ hq))]
    exact lookupKey_insertKey_ne a p.1 k p.2 (Ne.symm (h p (List.mem_cons_self _ _)))

/-- Merging a defaults map that does not bind `k` preserves the lookup of
`k` in the underlying record. -/
theorem lookupKey_merge_absent (a d : Record) (k : String)
    (hd : lookupKey d k = none) :
    lookupKey (merge a [d]) k = lookupKey a k := by
  simp only [merge, List.foldl_cons, List.foldl_nil]
  exact lookupKey_foldl_insertKey d a k ((lookupKey_none_iff d k).1 hd)

/-- `sendPrepare` preserves the lookup of any key different from the four
minimal-mode keys and from `timestamp`, provided the defaults map does
not bind it; in particular the `partnerID` routing key. -/
theorem lookupKey_sendPrepare_other (minimalLog : Bool) (defaults msg : Record)
    (now : Int) (k : String) (hk1 : k ≠ "filename") (hk2 : k ≠ "func")
    (hk3 : k ≠ "hostname") (hk4 : k ≠ "line") (hk5 : k ≠ "timestamp")
    (hd : lookupKey defaults k = none) :
    lookupKey (sendPrepare minimalLog defaults now msg) k = lookupKey msg k := by
  cases minimalLog with
  | true =>
    show lookupKey (eraseKey (eraseKey (eraseKey (eraseKey msg "filename") "func")
      "hostname") "line") k = lookupKey msg k
    rw [lookupKey_eraseKey_ne _ _ _ hk4, lookupKey_eraseKey_ne _ _ _ hk3,
        lookupKey_eraseKey_ne _ _ _ hk2, lookupKey_eraseKey_ne _ _ _ hk1]
  | false =>
    show lookupKey (merge (if (lookupKey msg "timestamp").isSome then msg
      else insertKey msg "timestamp" (.num now)) [defaults]) k = lookupKey msg k
    rw [lookupKey_merge_absent _ _ _ hd]
    by_cases ht : (lookupKey msg "timestamp").isSome
    · rw [if_pos ht]
    · rw [if_neg ht, lookupKey_insertKey_ne _ _ _ _ hk5]

/-! ### Buffer lemmas -/

/-- Neither buffer mutation (append or clear) removes a group key. -/
theorem lookupKey_applyOp_pres (op : BufOp) (buf : Buffer) (k2 : String)
    (h : lookupKey buf k2 ≠ none) : lookupKey (applyOp op buf) k2 ≠ none := by
  cases op with
  | append k b =>
    by_cases hk : k2 = k
    · subst hk
      simp [applyOp, bufferAppend, lookupKey_insertKey_self]
    · simpa [applyOp, bufferAppend, lookupKey_insertKey_ne _ _ _ _ hk] using h
  | clear k =>
    by_cases hk : k2 = k
    · subst hk
      simp [applyOp, lookupKey_insertKey_self]
    · simpa [applyOp, lookupKey_insertKey_ne _ _ _ _ hk] using h

/-- Neither buffer mutation decreases the number of groups. -/
theorem numGroups_le_applyOp (op : BufOp) (buf : Buffer) :
    numGroups buf ≤ numGroups (applyOp op buf) := by
  cases op with
  | append k b => exact length_le_insertKey _ _ _
  | clear k => exact length_le_insertKey _ _ _

/-- No sequence of buffer mutations removes a group key. -/
theorem lookupKey_applyOps_pres (ops : List BufOp) (buf : Buffer) (k2 : String)
    (h : lookupKey buf k2 ≠ none) : lookupKey (applyOps ops buf) k2 ≠ none := by
  induction ops generalizing buf with
  | nil => exact h
  | cons op tl ih => exact ih (applyOp op buf) (lookupKey_applyOp_pres op buf k2 h)

/-- No sequence of buffer mutations decreases the number of groups. -/
theorem numGroups_le_applyOps (ops : List BufOp) (buf : Buffer) :
    numGroups buf ≤ numGroups (applyOps ops buf) := by
  induction ops generalizing buf with
  | nil => exact le_refl _
  | cons op tl ih => exact le_trans (numGroups_le_applyOp op buf) (ih (applyOp op buf))

/-! ### Claim theorems -/

/-- Claim C1 (code bug): in a flush pass whose POST for group `g` comes
back with status 500, the drained batch is indeed gone from the buffer,
but the pass returns `none` (a nil error), not a delivery error: the
`return err` on the status check returns the nil `err` left by the
successful `client.Do`. -/
theorem C1_flush_http_error_returns_nil :
    flushPass (fun _ => .success ⟨500, "bad request"⟩) "https://e" [("g", ["m1", "m2"])]
      = ([("g", [])], [buildRequest "https://e" "g" "m1\nm2"], none) := by
  rfl

/-- Claim C2 (code bug): the clear `c.buffer[k] = nil` runs after the
lock protecting the snapshot is released, so the interleaving snapshot;
append; clear loses the appended blob: starting from a buffer holding
`b0` under `g`, the drain snapshots only `b0`, the producer appends
`b1`, and the clear then wipes the queue --- afterwards `b1` is neither
in the snapshot that gets shipped nor anywhere in the buffer. -/
theorem C2_lost_append_counterexample :
    (runActs [.snapshot "g", .append "g" "b1", .clear "g"] ⟨[("g", ["b0"])], []⟩).snap
        = ["b0"]
    ∧ lookupKey (runActs [.snapshot "g", .append "g" "b1", .clear "g"]
        ⟨[("g", ["b0"])], []⟩).buffer "g" = some []
    ∧ "b1" ∉ (runActs [.snapshot "g", .append "g" "b1", .clear "g"]
        ⟨[("g", ["b0"])], []⟩).snap := by
  decide

/-- The concrete client of the end-to-end threshold scenario: buffer
size 2, non-minimal, empty defaults. -/
def client2 : Client := ⟨.INFO, 2, false, []⟩

/-- Claim C3: the automatic-flush trigger compares the number of group
keys against the buffer size; with buffer size 2, sending to groups
`a` then `b` triggers the asynchronous flush on the second send, while
two records to the same group `a` (two queued records, one group) do
not. -/
theorem C3_trigger_counts_distinct_groups :
    (∀ (buf : Buffer) (sz : Nat), flushTriggered buf sz = true ↔ sz ≤ numGroups buf)
    ∧ (Send client2 5 [("partnerID", .str "a")] []).didFlush = false
    ∧ (Send client2 5 [("partnerID", .str "b")]
        (Send client2 5 [("partnerID", .str "a")] []).outBuf).didFlush = true
    ∧ (Send client2 5 [("partnerID", .str "a")]
        (Send client2 5 [("partnerID", .str "a")] []).outBuf).didFlush = false := by
  refine ⟨fun buf sz => ?_, rfl, rfl, rfl⟩
  simp [flushTriggered]

/-- Claim C5 (code bug): the Content-Length header is always the third
header of the built request, and its value is the Go rune conversion
`string(len(body))`, not the decimal rendering: a 65-byte body yields
the header value `"A"`. -/
theorem C5_content_length_is_rune_not_decimal :
    (∀ endpoint k body,
      ("Content-Length", goRuneString body.length) ∈ (buildRequest endpoint k body).headers)
    ∧ goRuneString 65 = "A" ∧ goRuneString 65 ≠ "65" := by
  refine ⟨fun endpoint k body => ?_, by decide, by decide⟩
  by_cases h : k = "notag" <;> simp [buildRequest, h]

/-- Claim C4 counterexample: with a configured defaults map that binds
`timestamp`, the defaults merge overwrites the caller-supplied value:
the caller sent `timestamp = 1` and the prepared record carries `999`. -/
theorem C4_default_timestamp_overwrites :
    lookupKey (sendPrepare false [("timestamp", .num 999)] 5 [("timestamp", .num 1)])
        "timestamp" = some (.num 999)
    ∧ lookupKey (sendPrepare false [("timestamp", .num 999)] 5 [("timestamp", .num 1)])
        "timestamp" ≠ some (.num 1) := by
  decide

/-- Claim C4 (amended): in non-minimal mode, provided the configured
defaults map does not bind `timestamp`, a caller-supplied `timestamp`
value survives preparation unchanged, and a missing `timestamp` is
filled with the current time. -/
theorem C4_timestamp_preserved (defaults msg : Record) (now : Int)
    (hd : lookupKey defaults "timestamp" = none) :
    (∀ t, lookupKey msg "timestamp" = some t →
      lookupKey (sendPrepare false defaults now msg) "timestamp" = some t)
    ∧ (lookupKey msg "timestamp" = none →
      lookupKey (sendPrepare false defaults now msg) "timestamp" = some (.num now)) := by
  constructor
  · intro t ht
    show lookupKey (merge (if (lookupKey msg "timestamp").isSome then msg
      else insertKey msg "timestamp" (.num now)) [defaults]) "timestamp" = some t
    rw [lookupKey_merge_absent _ _ _ hd, if_pos (by simp [ht]), ht]
  · intro ht
    show lookupKey (merge (if (lookupKey msg "timestamp").isSome then msg
      else insertKey msg "timestamp" (.num now)) [defaults]) "timestamp" = some (.num now)
    rw [lookupKey_merge_absent _ _ _ hd, if_neg (by simp [ht]),
        lookupKey_insertKey_self]

/-- Claim C4 witness: a concrete run of the amended statement, with the
hostname-only defaults the constructor installs. -/
theorem C4_timestamp_preserved_witness :
    lookupKey (sendPrepare false [("hostname", .str "h")] 7 [("timestamp", .num 3)])
        "timestamp" = some (.num 3)
    ∧ lookupKey (sendPrepare false [("hostname", .str "h")] 7 [("msg", .str "m")])
        "timestamp" = some (.num 7) :=
  ⟨(C4_timestamp_preserved [("hostname", .str "h")] [("timestamp", .num 3)] 7
      (by decide)).1 (.num 3) (by decide),
   (C4_timestamp_preserved [("hostname", .str "h")] [("msg", .str "m")] 7
      (by decide)).2 (by decide)⟩

/-- Claim C6: for a client whose defaults do not bind `partnerID`, a
record without `partnerID` routes into the `"notag"` sentinel group and
a record with a string `partnerID` routes into that group; the flush
request for a non-sentinel group carries the `X-Loggly-Tag` header with
the group key, and the sentinel group's request carries no such
header. -/
theorem C6_partner_routing (c : Client) (msg : Record) (s : String) (now : Int)
    (endpoint body : String) (hd : lookupKey c.defaults "partnerID" = none) :
    (lookupKey msg "partnerID" = none →
      groupKeyOf (sendPrepare c.minimalLog c.defaults now msg) = some "notag")
    ∧ (lookupKey msg "partnerID" = some (.str s) →
      groupKeyOf (sendPrepare c.minimalLog c.defaults now msg) = some s)
    ∧ (s ≠ "notag" → ("X-Loggly-Tag", s) ∈ (buildRequest endpoint s body).headers)
    ∧ (∀ v, ("X-Loggly-Tag", v) ∉ (buildRequest endpoint "notag" body).headers) := by
  have hpre := lookupKey_sendPrepare_other c.minimalLog c.defaults msg now "partnerID"
    (by decide) (by decide) (by decide) (by decide) (by decide) hd
  refine ⟨fun h => ?_, fun h => ?_, fun h => ?_, fun v hv => ?_⟩
  · unfold groupKeyOf
    rw [hpre, h]
  · unfold groupKeyOf
    rw [hpre, h]
  · simp [buildRequest, h]
  · simp [buildRequest] at hv

/-- Claim C6 witness: the routing and headers at concrete inputs, for a
non-minimal client with hostname-only defaults. -/
theorem C6_partner_routing_witness :
    groupKeyOf (sendPrepare false [("hostname", .str "h")] 3 [("partnerID", .str "x")])
        = some "x"
    ∧ ("X-Loggly-Tag", "x") ∈ (buildRequest "https://e" "x" "b").headers
    ∧ groupKeyOf (sendPrepare false [("hostname", .str "h")] 3 [("msg", .str "m")])
        = some "notag"
    ∧ ("X-Loggly-Tag", "x") ∉ (buildRequest "https://e" "notag" "b").headers :=
  ⟨(C6_partner_routing ⟨.INFO, 100, false, [("hostname", .str "h")]⟩
      [("partnerID", .str "x")] "x" 3 "https://e" "b" (by decide)).2.1 (by decide),
   (C6_partner_routing ⟨.INFO, 100, false, [("hostname", .str "h")]⟩
      [("partnerID", .str "x")] "x" 3 "https://e" "b" (by decide)).2.2.1 (by decide),
   (C6_partner_routing ⟨.INFO, 100, false, [("hostname", .str "h")]⟩
      [("msg", .str "m")] "x" 3 "https://e" "b" (by decide)).1 (by decide),
   (C6_partner_routing ⟨.INFO, 100, false, [("hostname", .str "h")]⟩
      [("msg", .str "m")] "x" 3 "https://e" "b" (by decide)).2.2.2 "x"⟩

/-- Claim C7: a severity wrapper whose call level is numerically below
the configured client level returns a nil error at once and leaves the
buffer exactly as it was, with no flush started. -/
theorem C7_severity_below_level_noop (c : Client) (callLevel : Level) (t : String)
    (props : List Record) (now : Int) (buf : Buffer)
    (h : callLevel.toNat < c.level.toNat) :
    severityCall c callLevel t props now buf = .returned none buf false := by
  unfold severityCall
  rw [if_pos h]

/-- Claim C7 witness: a client at level ERROR short-circuits an
info-level call on a concrete non-empty buffer. -/
theorem C7_severity_below_level_noop_witness :
    Level.toNat .INFO < Level.toNat .ERROR
    ∧ severityCall ⟨.ERROR, 100, false, []⟩ .INFO "db" [] 0 [("g", ["x"])]
        = .returned none [("g", ["x"])] false :=
  ⟨by decide, C7_severity_below_level_noop ⟨.ERROR, 100, false, []⟩ .INFO "db" [] 0
      [("g", ["x"])] (by decide)⟩

/-- Claim C8: minimal-mode preparation is exactly the erasure of the
`filename`, `func`, `hostname` and `line` keys --- no timestamp fill and
no defaults merge --- and each of the four keys is absent from the
prepared record whatever the input record held. -/
theorem C8_minimal_mode_strips_keys (msg defaults : Record) (now : Int) :
    sendPrepare true defaults now msg
      = eraseKey (eraseKey (eraseKey (eraseKey msg "filename") "func") "hostname") "line"
    ∧ lookupKey (sendPrepare true defaults now msg) "filename" = none
    ∧ lookupKey (sendPrepare true defaults now msg) "func" = none
    ∧ lookupKey (sendPrepare true defaults now msg) "hostname" = none
    ∧ lookupKey (sendPrepare true defaults now msg) "line" = none := by
  have hrep : sendPrepare true defaults now msg
      = eraseKey (eraseKey (eraseKey (eraseKey msg "filename") "func") "hostname") "line" :=
    rfl
  refine ⟨hrep, ?_, ?_, ?_, ?_⟩
  · rw [hrep, lookupKey_eraseKey_ne _ _ _ (by decide),
        lookupKey_eraseKey_ne _ _ _ (by decide), lookupKey_eraseKey_ne _ _ _ (by decide),
        lookupKey_eraseKey_self]
  · rw [hrep, lookupKey_eraseKey_ne _ _ _ (by decide),
        lookupKey_eraseKey_ne _ _ _ (by decide), lookupKey_eraseKey_self]
  · rw [hrep, lookupKey_eraseKey_ne _ _ _ (by decide), lookupKey_eraseKey_self]
  · rw [hrep, lookupKey_eraseKey_self]

/-- Claim C9: no buffer mutation the client performs removes a group
key --- the clear of `Flush` only nils the queue --- so the group count
is monotone, and once it has reached the buffer size every later append
(hence every later `Send` or `Write`) finds the trigger condition
satisfied and starts an asynchronous flush. -/
theorem C9_group_count_monotone (ops : List BufOp) (buf : Buffer) (sz : Nat)
    (k b : String) (h : sz ≤ numGroups buf) :
    (∀ k2, lookupKey buf k2 ≠ none → lookupKey (applyOps ops buf) k2 ≠ none)
    ∧ sz ≤ numGroups (applyOps ops buf)
    ∧ flushTriggered (bufferAppend (applyOps ops buf) k b) sz = true := by
  refine ⟨fun k2 => lookupKey_applyOps_pres ops buf k2,
    le_trans h (numGroups_le_applyOps ops buf), ?_⟩
  simp only [flushTriggered, decide_eq_true_eq]
  exact le_trans (le_trans h (numGroups_le_applyOps ops buf))
    (length_le_insertKey _ _ _)

/-- Claim C9 witness: a buffer that reached two groups keeps triggering
after a clear of one group and an append to a third. -/
theorem C9_group_count_monotone_witness :
    2 ≤ numGroups [("a", ["x"]), ("b", ["y"])]
    ∧ ((∀ k2, lookupKey [("a", ["x"]), ("b", ["y"])] k2 ≠ none →
          lookupKey (applyOps [.clear "a", .append "c" "z"]
            [("a", ["x"]), ("b", ["y"])]) k2 ≠ none)
      ∧ 2 ≤ numGroups (applyOps [.clear "a", .append "c" "z"]
          [("a", ["x"]), ("b", ["y"])])
      ∧ flushTriggered (bufferAppend (applyOps [.clear "a", .append "c" "z"]
          [("a", ["x"]), ("b", ["y"])]) "d" "w") 2 = true) :=
  ⟨by decide, C9_group_count_monotone [.clear "a", .append "c" "z"]
      [("a", ["x"]), ("b", ["y"])] 2 "d" "w" (by decide)⟩

/-- Claim C10: when the record binds `partnerID` to a non-string value
(and the defaults do not bind `partnerID`), `Send` panics on the
unchecked `val.(string)` type assertion instead of returning an
error. -/
theorem C10_nonstring_partnerID_panics (c : Client) (msg : Record) (v : JValue)
    (now : Int) (buf : Buffer) (hmsg : lookupKey msg "partnerID" = some v)
    (hv : ∀ s, v ≠ .str s) (hd : lookupKey c.defaults "partnerID" = none) :
    Send c now msg buf = .panicked := by
  have hpre := lookupKey_sendPrepare_other c.minimalLog c.defaults msg now "partnerID"
    (by decide) (by decide) (by decide) (by decide) (by decide) hd
  have hg : groupKeyOf (sendPrepare c.minimalLog c.defaults now msg) = none := by
    unfold groupKeyOf
    rw [hpre, hmsg]
    cases v with
    | str s => exact absurd rfl (hv s)
    | num n => rfl
    | bool b => rfl
    | null => rfl
  simp [Send, hg]

/-- Claim C10 witness: a record whose `partnerID` is the number 3 makes
`Send` panic. -/
theorem C10_nonstring_partnerID_panics_witness :
    Send ⟨.INFO, 100, false, []⟩ 0 [("partnerID", .num 3)] [] = .panicked :=
  C10_nonstring_partnerID_panics ⟨.INFO, 100, false, []⟩ [("partnerID", .num 3)]
    (.num 3) 0 [] (by decide) (fun s h => by cases h) (by decide)

end Loggly
